import Mathlib

set_option maxRecDepth 8000

/-!
Shallow embedding of `src/pipeline/src/validation.py` (class `DataQualityValidator`).

Modelling conventions:
* A pandas `DataFrame` is a row count together with named columns; each column has a
  dtype tag and a list of cell values.  `None`/`NaN`/`NaT` are all rendered as `Value.vnull`.
* Percentages are modelled over `ℚ`.  numpy evaluates `0 / 0` to `NaN`, and every
  comparison `NaN > c` is `False`; in `ℚ` the convention `0 / 0 = 0` gives the same
  gating outcome for the nonnegative thresholds the program uses.
* Python `round(x, 2)` is modelled by `round2`; the two differ only on exact ties
  (banker's rounding vs. round-half-up), which no value in this development hits.
* The `.str` accessor of pandas raises `AttributeError` unless the column is an
  object-dtyped column of strings (with nulls allowed); `strAccessorOk` captures this,
  and `validate_schema` is consequently `Except`-valued.  The other three checks are
  total functions, exactly as in the source.
* `run` logs each failed check's name and message and then raises
  `ValueError("Data quality validation failed - pipeline stopped")`; the raised
  condition is modelled as `PyError.valueError` carrying that fixed message together
  with the (name, message) pairs emitted in the log loop at the raise site.
-/

inductive Value where
  | vstr (s : String)
  | vint (n : Int)
  | vdatetime (t : Int)
  | vnull
deriving DecidableEq

inductive Dtype where
  | object
  | datetime64
  | numeric
deriving DecidableEq

structure Column where
  dtype : Dtype
  cells : List Value
deriving DecidableEq

structure DataFrame where
  nrows : Nat
  cols : List (String × Column)
deriving DecidableEq

def DataFrame.columns (df : DataFrame) : List String := df.cols.map Prod.fst

def DataFrame.len (df : DataFrame) : Nat := df.nrows

def DataFrame.getCol? (df : DataFrame) (name : String) : Option Column :=
  (df.cols.find? (fun p => p.1 == name)).map Prod.snd

/-- Column access `df[name]`.  Every access in the embedded checks is guarded by a
membership test on `df.columns` first (mirroring the source), so the default value is
dead code and a pandas `KeyError` can never arise on the modelled paths. -/
def DataFrame.getColD (df : DataFrame) (name : String) : Column :=
  (df.getCol? name).getD ⟨Dtype.object, []⟩

def Value.isna : Value → Bool
  | Value.vnull => true
  | _ => false

def Value.isStr : Value → Bool
  | Value.vstr _ => true
  | _ => false

def Value.isNumericCell : Value → Bool
  | Value.vint _ => true
  | Value.vnull => true
  | _ => false

def Value.isDatetimeCell : Value → Bool
  | Value.vdatetime _ => true
  | Value.vnull => true
  | _ => false

/-- Cells are consistent with the column's declared dtype (a real pandas column cannot
hold strings under an `int64`/`datetime64` dtype). -/
def Column.wfb (c : Column) : Bool :=
  match c.dtype with
  | Dtype.object => true
  | Dtype.datetime64 => c.cells.all Value.isDatetimeCell
  | Dtype.numeric => c.cells.all Value.isNumericCell

/-- Well-formed table: every column has exactly `nrows` cells and is dtype-consistent,
and column names are distinct. -/
def DataFrame.wf (df : DataFrame) : Bool :=
  df.cols.all (fun p => (p.2.cells.length == df.nrows) && p.2.wfb) &&
    decide df.columns.Nodup

/-- Python `round(q, 2)` (ties ignored, see module comment). -/
def round2 (q : ℚ) : ℚ := ((round (q * 100) : ℤ) : ℚ) / 100

inductive Status where
  | PASSED
  | FAILED
  | WARNING
deriving DecidableEq

structure NullColDetail where
  null_count : Nat
  null_percentage : ℚ
  total_rows : Nat
deriving DecidableEq

/-- The check-specific `details` dictionaries of the source, one constructor per shape. -/
inductive Details where
  | schemaMissing (expected_columns : List String) (actual_columns : List String)
      (missing : List String)
  | schemaTypeErrors (type_errors : List String)
  | schemaValidated (validated_columns : List String)
  | nullReport (report : List (String × NullColDetail))
  | emptyDetails
  | dupWarning (duplicate_count : Nat) (duplicate_percentage : ℚ) (total_rows : Nat)
      (sample_duplicates : List Value)
  | dupPassed (duplicate_count : Nat) (total_rows : Nat)
  | rowCount (actual_rows : Nat) (minimum_required : Nat)
deriving DecidableEq

structure CheckResult where
  check : String
  status : Status
  message : String
  details : Details
deriving DecidableEq

/-- `self.validation_results`: the three accumulator lists created in `__init__`. -/
structure ValidationResults where
  passed : List CheckResult
  failed : List CheckResult
  warnings : List CheckResult
deriving DecidableEq

def ValidationResults.empty : ValidationResults := ⟨[], [], []⟩

def ValidationResults.addPassed (st : ValidationResults) (r : CheckResult) :
    ValidationResults :=
  { st with passed := st.passed ++ [r] }

def ValidationResults.addFailed (st : ValidationResults) (r : CheckResult) :
    ValidationResults :=
  { st with failed := st.failed ++ [r] }

def ValidationResults.addWarning (st : ValidationResults) (r : CheckResult) :
    ValidationResults :=
  { st with warnings := st.warnings ++ [r] }

inductive PyError where
  | attributeError (msg : String)
  | valueError (msg : String) (failures : List (String × String))
deriving DecidableEq

def isHexLower (c : Char) : Bool :=
  (decide ('a' ≤ c) && decide (c ≤ 'f')) || (decide ('0' ≤ c) && decide (c ≤ '9'))

def shaCore (l : List Char) : Bool := (l.length == 40) && l.all isHexLower

/-- Python `re.match(r'^[a-f0-9]\x7b40\x7d$', s)` as a Boolean: 40 lowercase hex chars;
`$` also matches just before one trailing newline. -/
def shaMatch (s : String) : Bool :=
  shaCore s.data || ((s.data.getLast? == some '\n') && shaCore s.data.dropLast)

/-- `Series.str.match(..., na=False)` on one cell: nulls and non-strings give `False`. -/
def shaCellMatch : Value → Bool
  | Value.vstr s => shaMatch s
  | _ => false

/-- pandas allows the `.str` accessor only on object-dtyped columns whose values are
strings (nulls allowed); otherwise it raises
`AttributeError: Can only use .str accessor with string values!`. -/
def strAccessorOk (c : Column) : Bool :=
  (c.dtype == Dtype.object) && c.cells.all (fun v => v.isStr || v.isna)

def required_columns : List String :=
  ["commit_sha", "author_name", "author_email", "author_date",
   "committer_name", "committer_email", "committer_date",
   "commit_message", "comment_count"]

def critical_columns : List String :=
  ["commit_sha", "author_name", "author_email", "author_date",
   "committer_name", "committer_email", "committer_date", "commit_message"]

/-- `DataQualityValidator.validate_schema` (validation.py lines 69-134). -/
def validate_schema (st : ValidationResults) (df : DataFrame) :
    Except PyError (ValidationResults × Bool × CheckResult) :=
  let missing_columns := required_columns.filter (fun col => !(df.columns.contains col))
  if missing_columns ≠ [] then
    let result : CheckResult := ⟨"schema_validation", Status.FAILED,
      "Missing required columns: " ++ toString missing_columns,
      Details.schemaMissing required_columns df.columns missing_columns⟩
    Except.ok (st.addFailed result, false, result)
  else
    let sha := df.getColD "commit_sha"
    if strAccessorOk sha = false then
      Except.error (PyError.attributeError "Can only use .str accessor with string values!")
    else
      let invalid_count := (sha.cells.filter (fun v => !(shaCellMatch v))).length
      let type_errors : List String :=
        (if 0 < invalid_count then [toString invalid_count ++ " invalid SHA hashes"] else [])
          ++ (if (df.getColD "author_date").dtype ≠ Dtype.datetime64 then
                ["author_date is not datetime type"] else [])
          ++ (if (df.getColD "committer_date").dtype ≠ Dtype.datetime64 then
                ["committer_date is not datetime type"] else [])
          ++ (if (df.getColD "comment_count").dtype ≠ Dtype.numeric then
                ["comment_count is not numeric type"] else [])
      if type_errors ≠ [] then
        let result : CheckResult := ⟨"schema_validation", Status.FAILED,
          "Data type validation errors: " ++ toString type_errors,
          Details.schemaTypeErrors type_errors⟩
        Except.ok (st.addFailed result, false, result)
      else
        let result : CheckResult := ⟨"schema_validation", Status.PASSED,
          "All required columns present with correct types",
          Details.schemaValidated required_columns⟩
        Except.ok (st.addPassed result, true, result)

/-- The `type_errors` list assembled by `validate_schema` on the type-check path
(named here so lemmas can speak about that branch; identical to the zeta-reduced
`let type_errors := ...` of the source function). -/
def schemaTypeErrorsOf (df : DataFrame) : List String :=
  (if 0 < ((df.getColD "commit_sha").cells.filter (fun v => !(shaCellMatch v))).length then
    [toString ((df.getColD "commit_sha").cells.filter (fun v => !(shaCellMatch v))).length ++
      " invalid SHA hashes"] else [])
    ++ (if (df.getColD "author_date").dtype ≠ Dtype.datetime64 then
          ["author_date is not datetime type"] else [])
    ++ (if (df.getColD "committer_date").dtype ≠ Dtype.datetime64 then
          ["committer_date is not datetime type"] else [])
    ++ (if (df.getColD "comment_count").dtype ≠ Dtype.numeric then
          ["comment_count is not numeric type"] else [])

def nullCount (df : DataFrame) (col : String) : Nat :=
  ((df.getColD col).cells.filter Value.isna).length

def nullPct (df : DataFrame) (col : String) : ℚ :=
  ((nullCount df col : ℚ) / (df.len : ℚ)) * 100

def nullEntry (df : DataFrame) (col : String) : NullColDetail :=
  ⟨nullCount df col, round2 (nullPct df col), df.len⟩

/-- The `for col in critical_columns` loop of `validate_nulls`: builds the per-column
report (in list order, present columns only) and the `has_critical_nulls` flag. -/
def nullsLoop (df : DataFrame) (threshold : ℚ) :
    List String → List (String × NullColDetail) × Bool
  | [] => ([], false)
  | col :: rest =>
    let r := nullsLoop df threshold rest
    if df.columns.contains col then
      ((col, nullEntry df col) :: r.1,
        (decide (nullPct df col > threshold * 100)) || r.2)
    else r

/-- `DataQualityValidator.validate_nulls` (validation.py lines 136-183). -/
def validate_nulls (st : ValidationResults) (df : DataFrame) (threshold : ℚ) :
    ValidationResults × Bool × CheckResult :=
  let pr := nullsLoop df threshold critical_columns
  if pr.2 then
    let result : CheckResult := ⟨"null_validation", Status.FAILED,
      "Critical columns have >=" ++ toString (threshold * 100) ++ "% null values",
      Details.nullReport pr.1⟩
    (st.addFailed result, false, result)
  else
    let result : CheckResult := ⟨"null_validation", Status.PASSED,
      "Null values within acceptable threshold", Details.nullReport pr.1⟩
    (st.addPassed result, true, result)

/-- `Series.duplicated().sum()`: cells that already occurred earlier in the column. -/
def dupAux : List Value → List Value → Nat
  | [], _ => 0
  | v :: rest, seen => (if v ∈ seen then 1 else 0) + dupAux rest (v :: seen)

def duplicatedCount (l : List Value) : Nat := dupAux l []

/-- `Series.unique()`: first occurrences, in order of appearance. -/
def uniqueAux : List Value → List Value → List Value
  | [], _ => []
  | v :: rest, seen =>
    if v ∈ seen then uniqueAux rest seen else v :: uniqueAux rest (v :: seen)

/-- `df[df[pk].duplicated(keep=False)][pk]`: all cells whose value occurs at least twice. -/
def keepFalseDuplicated (l : List Value) : List Value :=
  l.filter (fun v => 2 ≤ l.count v)

/-- `df[df[pk].duplicated(keep=False)][pk].unique()[:5]`. -/
def sample_duplicates (l : List Value) : List Value :=
  (uniqueAux (keepFalseDuplicated l) []).take 5

/-- `DataQualityValidator.validate_duplicates` (validation.py lines 185-235). -/
def validate_duplicates (st : ValidationResults) (df : DataFrame) (primary_key : String) :
    ValidationResults × Bool × CheckResult :=
  if df.columns.contains primary_key = false then
    let result : CheckResult := ⟨"duplicate_detection", Status.FAILED,
      "Primary key column " ++ primary_key ++ " not found", Details.emptyDetails⟩
    (st.addFailed result, false, result)
  else
    let keyvals := (df.getColD primary_key).cells
    let duplicate_count := duplicatedCount keyvals
    let duplicate_percentage : ℚ := ((duplicate_count : ℚ) / (df.len : ℚ)) * 100
    if 0 < duplicate_count then
      let result : CheckResult := ⟨"duplicate_detection", Status.WARNING,
        "Found " ++ toString duplicate_count ++ " duplicate records (" ++
          toString (round2 duplicate_percentage) ++ "%)",
        Details.dupWarning duplicate_count (round2 duplicate_percentage) df.len
          (sample_duplicates keyvals)⟩
      (st.addWarning result, true, result)
    else
      let result : CheckResult := ⟨"duplicate_detection", Status.PASSED,
        "No duplicate records found", Details.dupPassed 0 df.len⟩
      (st.addPassed result, true, result)

/-- `DataQualityValidator.validate_row_count` (validation.py lines 237-270). -/
def validate_row_count (st : ValidationResults) (df : DataFrame) (min_rows : Nat) :
    ValidationResults × Bool × CheckResult :=
  if df.len < min_rows then
    let result : CheckResult := ⟨"row_count_validation", Status.FAILED,
      "Insufficient rows: " ++ toString df.len ++ " < " ++ toString min_rows ++ " (minimum)",
      Details.rowCount df.len min_rows⟩
    (st.addFailed result, false, result)
  else
    let result : CheckResult := ⟨"row_count_validation", Status.PASSED,
      "Row count meets minimum requirement: " ++ toString df.len ++ " >= " ++
        toString min_rows,
      Details.rowCount df.len min_rows⟩
    (st.addPassed result, true, result)

structure Summary where
  total_checks : Nat
  passed : Nat
  failed : Nat
  warnings : Nat
  success_rate : ℚ
deriving DecidableEq

structure Report where
  summary : Summary
  results : ValidationResults
  timestamp : String
deriving DecidableEq

/-- `DataQualityValidator.generate_report` (validation.py lines 272-295); the timestamp
(`datetime.now().isoformat()`) is an external input of the model. -/
def generate_report (st : ValidationResults) (timestamp : String) : Report :=
  let total_checks := st.passed.length + st.failed.length + st.warnings.length
  ⟨⟨total_checks, st.passed.length, st.failed.length, st.warnings.length,
    round2 (if 0 < total_checks then
      ((st.passed.length : ℚ) / (total_checks : ℚ)) * 100
    else 0)⟩,
   st, timestamp⟩

/-- The four check calls of `DataQualityValidator.run` (validation.py lines 307-311),
started from an arbitrary accumulator state.  Only `validate_schema` can raise; an
exception aborts the remaining checks (the `try` block re-raises). -/
def runChecks (st : ValidationResults) (df : DataFrame) :
    Except PyError ValidationResults :=
  match validate_schema st df with
  | Except.error e => Except.error e
  | Except.ok (st1, _, _) =>
    let st2 := (validate_nulls st1 df 0.05).1
    let st3 := (validate_duplicates st2 df "commit_sha").1
    let st4 := (validate_row_count st3 df 10).1
    Except.ok st4

/-- `DataQualityValidator.run` (validation.py lines 297-345) on a freshly constructed
validator (empty accumulators), with the dataset passed in place of `load_data()`.
The generated report is used only for logging there and does not affect control flow. -/
def run (df : DataFrame) (fail_on_error : Bool) :
    Except PyError (ValidationResults × Bool) :=
  match runChecks ValidationResults.empty df with
  | Except.error e => Except.error e
  | Except.ok st =>
    let has_failures := decide (0 < st.failed.length)
    if has_failures && fail_on_error then
      Except.error (PyError.valueError "Data quality validation failed - pipeline stopped"
        (st.failed.map (fun r => (r.check, r.message))))
    else if has_failures then Except.ok (st, false)
    else Except.ok (st, true)

/-- One full fresh-instance pass: run the four checks, then generate the report
(`none` when a check raised, in which case no report is produced). -/
def reportOf (df : DataFrame) (timestamp : String) : Option Report :=
  match runChecks ValidationResults.empty df with
  | Except.ok st => some (generate_report st timestamp)
  | Except.error _ => none

/-- Status of the schema check's returned result (`none` when the check raised). -/
def schemaStatus? (st : ValidationResults) (df : DataFrame) : Option Status :=
  match validate_schema st df with
  | Except.ok (_, _, r) => some r.status
  | Except.error _ => none

/-- The `missing` entry of the schema check's details, when present. -/
def schemaMissing? (st : ValidationResults) (df : DataFrame) : Option (List String) :=
  match validate_schema st df with
  | Except.ok (_, _, r) =>
    match r.details with
    | Details.schemaMissing _ _ missing => some missing
    | _ => none
  | Except.error _ => none

def stSize (st : ValidationResults) : Nat :=
  st.passed.length + st.failed.length + st.warnings.length

/-- Every accumulated result sits in the bucket matching its status. -/
def bucketsOK (st : ValidationResults) : Prop :=
  (∀ r ∈ st.passed, r.status = Status.PASSED) ∧
  (∀ r ∈ st.failed, r.status = Status.FAILED) ∧
  (∀ r ∈ st.warnings, r.status = Status.WARNING)


/-- Five rows and no columns (only the row count is consulted by the row-count check). -/
def df5 : DataFrame := ⟨5, []⟩

/-- The empty table: no rows, no columns. -/
def dfEmpty0 : DataFrame := ⟨0, []⟩

/-- Zero rows with all eight critical columns present. -/
def dfNull0 : DataFrame :=
  ⟨0, [("commit_sha", ⟨Dtype.object, []⟩), ("author_name", ⟨Dtype.object, []⟩),
       ("author_email", ⟨Dtype.object, []⟩), ("author_date", ⟨Dtype.datetime64, []⟩),
       ("committer_name", ⟨Dtype.object, []⟩), ("committer_email", ⟨Dtype.object, []⟩),
       ("committer_date", ⟨Dtype.datetime64, []⟩), ("commit_message", ⟨Dtype.object, []⟩)]⟩

/-- Ten rows, every required column except `comment_count`, distinct keys, no nulls:
schema fails on the missing column while the other three checks pass (the end-to-end
scenario of the spec: one FAILED, three PASSED, no WARNING). -/
def dfE2E : DataFrame :=
  ⟨10,
   [("commit_sha", ⟨Dtype.object,
      [Value.vstr "s0", Value.vstr "s1", Value.vstr "s2", Value.vstr "s3", Value.vstr "s4",
       Value.vstr "s5", Value.vstr "s6", Value.vstr "s7", Value.vstr "s8", Value.vstr "s9"]⟩),
    ("author_name", ⟨Dtype.object, List.replicate 10 (Value.vstr "a")⟩),
    ("author_email", ⟨Dtype.object, List.replicate 10 (Value.vstr "a")⟩),
    ("author_date", ⟨Dtype.datetime64, List.replicate 10 (Value.vdatetime 0)⟩),
    ("committer_name", ⟨Dtype.object, List.replicate 10 (Value.vstr "a")⟩),
    ("committer_email", ⟨Dtype.object, List.replicate 10 (Value.vstr "a")⟩),
    ("committer_date", ⟨Dtype.datetime64, List.replicate 10 (Value.vdatetime 0)⟩),
    ("commit_message", ⟨Dtype.object, List.replicate 10 (Value.vstr "a")⟩)]⟩

/-- Five rows whose key column has one value repeated exactly three times among
otherwise-unique values. -/
def dfDup : DataFrame :=
  ⟨5, [("commit_sha", ⟨Dtype.object,
        [Value.vstr "a", Value.vstr "a", Value.vstr "a", Value.vstr "b", Value.vstr "c"]⟩)]⟩

/-- One row, all nine required columns, but `commit_sha` stored under a numeric dtype
(not string-valued): the `.str` accessor raises here. -/
def dfIntSha : DataFrame :=
  ⟨1, [("commit_sha", ⟨Dtype.numeric, [Value.vint 123]⟩),
       ("author_name", ⟨Dtype.object, [Value.vstr "x"]⟩),
       ("author_email", ⟨Dtype.object, [Value.vstr "x"]⟩),
       ("author_date", ⟨Dtype.datetime64, [Value.vdatetime 0]⟩),
       ("committer_name", ⟨Dtype.object, [Value.vstr "x"]⟩),
       ("committer_email", ⟨Dtype.object, [Value.vstr "x"]⟩),
       ("committer_date", ⟨Dtype.datetime64, [Value.vdatetime 0]⟩),
       ("commit_message", ⟨Dtype.object, [Value.vstr "x"]⟩),
       ("comment_count", ⟨Dtype.numeric, [Value.vint 1]⟩)]⟩

/-- Zero rows, all nine required columns, `commit_sha` under a numeric dtype (as an
empty numeric column): dates and counts correctly typed and every (absent) key value
vacuously matches the pattern, yet the `.str` accessor still raises. -/
def dfEmptyNumericSha : DataFrame :=
  ⟨0, [("commit_sha", ⟨Dtype.numeric, []⟩),
       ("author_name", ⟨Dtype.object, []⟩),
       ("author_email", ⟨Dtype.object, []⟩),
       ("author_date", ⟨Dtype.datetime64, []⟩),
       ("committer_name", ⟨Dtype.object, []⟩),
       ("committer_email", ⟨Dtype.object, []⟩),
       ("committer_date", ⟨Dtype.datetime64, []⟩),
       ("commit_message", ⟨Dtype.object, []⟩),
       ("comment_count", ⟨Dtype.numeric, []⟩)]⟩

/-- Two rows with the eight critical columns where `author_email` is half null (50%,
above the 5% default threshold). -/
def dfNullFail : DataFrame :=
  ⟨2, [("commit_sha", ⟨Dtype.object, [Value.vstr "a", Value.vstr "b"]⟩),
       ("author_name", ⟨Dtype.object, [Value.vstr "x", Value.vstr "x"]⟩),
       ("author_email", ⟨Dtype.object, [Value.vnull, Value.vstr "e"]⟩),
       ("author_date", ⟨Dtype.datetime64, [Value.vdatetime 0, Value.vdatetime 0]⟩),
       ("committer_name", ⟨Dtype.object, [Value.vstr "x", Value.vstr "x"]⟩),
       ("committer_email", ⟨Dtype.object, [Value.vstr "x", Value.vstr "x"]⟩),
       ("committer_date", ⟨Dtype.datetime64, [Value.vdatetime 0, Value.vdatetime 0]⟩),
       ("commit_message", ⟨Dtype.object, [Value.vstr "m", Value.vstr "m"]⟩)]⟩

/-- A 40-character lowercase hex key. -/
def sha40 : String := "aaaaaaaaaaaaaaaaaaaaaaaaaaaaaaaaaaaaaaaa"

/-- One fully valid row: all nine columns present and correctly typed, key matching
the SHA pattern. -/
def dfGood : DataFrame :=
  ⟨1, [("commit_sha", ⟨Dtype.object, [Value.vstr sha40]⟩),
       ("author_name", ⟨Dtype.object, [Value.vstr "x"]⟩),
       ("author_email", ⟨Dtype.object, [Value.vstr "x"]⟩),
       ("author_date", ⟨Dtype.datetime64, [Value.vdatetime 0]⟩),
       ("committer_name", ⟨Dtype.object, [Value.vstr "x"]⟩),
       ("committer_email", ⟨Dtype.object, [Value.vstr "x"]⟩),
       ("committer_date", ⟨Dtype.datetime64, [Value.vdatetime 0]⟩),
       ("commit_message", ⟨Dtype.object, [Value.vstr "m"]⟩),
       ("comment_count", ⟨Dtype.numeric, [Value.vint 1]⟩)]⟩

theorem stSize_addPassed (st : ValidationResults) (r : CheckResult) :
    stSize (st.addPassed r) = stSize st + 1 := by
  simp [stSize, ValidationResults.addPassed]
  omega

theorem stSize_addFailed (st : ValidationResults) (r : CheckResult) :
    stSize (st.addFailed r) = stSize st + 1 := by
  simp [stSize, ValidationResults.addFailed]
  omega

theorem stSize_addWarning (st : ValidationResults) (r : CheckResult) :
    stSize (st.addWarning r) = stSize st + 1 := by
  simp [stSize, ValidationResults.addWarning]
  omega

theorem bucketsOK_empty : bucketsOK ValidationResults.empty := by
  refine ⟨?_, ?_, ?_⟩ <;> intro r hr <;> simp [ValidationResults.empty] at hr

theorem bucketsOK_addPassed (st : ValidationResults) (r : CheckResult)
    (hb : bucketsOK st) (hr : r.status = Status.PASSED) : bucketsOK (st.addPassed r) := by
  obtain ⟨h1, h2, h3⟩ := hb
  refine ⟨?_, h2, h3⟩
  intro x hx
  rcases List.mem_append.mp hx with h | h
  · exact h1 x h
  · simp at h
    subst h
    exact hr

theorem bucketsOK_addFailed (st : ValidationResults) (r : CheckResult)
    (hb : bucketsOK st) (hr : r.status = Status.FAILED) : bucketsOK (st.addFailed r) := by
  obtain ⟨h1, h2, h3⟩ := hb
  refine ⟨h1, ?_, h3⟩
  intro x hx
  rcases List.mem_append.mp hx with h | h
  · exact h2 x h
  · simp at h
    subst h
    exact hr

theorem bucketsOK_addWarning (st : ValidationResults) (r : CheckResult)
    (hb : bucketsOK st) (hr : r.status = Status.WARNING) : bucketsOK (st.addWarning r) := by
  obtain ⟨h1, h2, h3⟩ := hb
  refine ⟨h1, h2, ?_⟩
  intro x hx
  rcases List.mem_append.mp hx with h | h
  · exact h3 x h
  · simp at h
    subst h
    exact hr

/-- Case analysis for an equation whose left side is an `if`. -/
theorem ite_eq_elim {α : Sort _} {c : Prop} [Decidable c] {x y e : α}
    (h : (if c then x else y) = e) : (c ∧ x = e) ∨ (¬ c ∧ y = e) := by
  by_cases hc : c <;> simp_all

/-- Every `Except.ok` outcome of the schema check appends exactly one result, to the
bucket matching its status. -/
theorem validate_schema_shape (st : ValidationResults) (df : DataFrame)
    (st' : ValidationResults) (b : Bool) (r : CheckResult)
    (h : validate_schema st df = Except.ok (st', b, r)) :
    (r.status = Status.FAILED ∧ st' = st.addFailed r) ∨
    (r.status = Status.PASSED ∧ st' = st.addPassed r) := by
  simp only [validate_schema] at h
  rcases ite_eq_elim h with ⟨_, h⟩ | ⟨_, h⟩
  · simp only [Except.ok.injEq, Prod.mk.injEq] at h
    obtain ⟨h1, _, h3⟩ := h
    subst h3
    exact Or.inl ⟨rfl, h1.symm⟩
  · rcases ite_eq_elim h with ⟨_, h⟩ | ⟨_, h⟩
    · exact Except.noConfusion h
    · rcases ite_eq_elim h with ⟨_, h⟩ | ⟨_, h⟩
      · simp only [Except.ok.injEq, Prod.mk.injEq] at h
        obtain ⟨h1, _, h3⟩ := h
        subst h3
        exact Or.inl ⟨rfl, h1.symm⟩
      · simp only [Except.ok.injEq, Prod.mk.injEq] at h
        obtain ⟨h1, _, h3⟩ := h
        subst h3
        exact Or.inr ⟨rfl, h1.symm⟩

theorem validate_schema_size (st : ValidationResults) (df : DataFrame)
    (st' : ValidationResults) (b : Bool) (r : CheckResult)
    (h : validate_schema st df = Except.ok (st', b, r)) :
    stSize st' = stSize st + 1 := by
  rcases validate_schema_shape st df st' b r h with ⟨_, h2⟩ | ⟨_, h2⟩ <;> subst h2
  · exact stSize_addFailed st r
  · exact stSize_addPassed st r

theorem validate_schema_buckets (st : ValidationResults) (df : DataFrame)
    (st' : ValidationResults) (b : Bool) (r : CheckResult)
    (h : validate_schema st df = Except.ok (st', b, r)) (hb : bucketsOK st) :
    bucketsOK st' := by
  rcases validate_schema_shape st df st' b r h with ⟨h1, h2⟩ | ⟨h1, h2⟩ <;> subst h2
  · exact bucketsOK_addFailed st r hb h1
  · exact bucketsOK_addPassed st r hb h1

theorem validate_nulls_shape (st : ValidationResults) (df : DataFrame) (t : ℚ) :
    ((validate_nulls st df t).2.2.status = Status.FAILED ∧
      (validate_nulls st df t).1 = st.addFailed (validate_nulls st df t).2.2) ∨
    ((validate_nulls st df t).2.2.status = Status.PASSED ∧
      (validate_nulls st df t).1 = st.addPassed (validate_nulls st df t).2.2) := by
  simp only [validate_nulls]
  by_cases hc : (nullsLoop df t critical_columns).2 = true
  · rw [if_pos hc]
    exact Or.inl ⟨rfl, rfl⟩
  · rw [if_neg hc]
    exact Or.inr ⟨rfl, rfl⟩

theorem validate_nulls_size (st : ValidationResults) (df : DataFrame) (t : ℚ) :
    stSize (validate_nulls st df t).1 = stSize st + 1 := by
  rcases validate_nulls_shape st df t with ⟨_, h2⟩ | ⟨_, h2⟩ <;> rw [h2]
  · exact stSize_addFailed st _
  · exact stSize_addPassed st _

theorem validate_nulls_buckets (st : ValidationResults) (df : DataFrame) (t : ℚ)
    (hb : bucketsOK st) : bucketsOK (validate_nulls st df t).1 := by
  rcases validate_nulls_shape st df t with ⟨h1, h2⟩ | ⟨h1, h2⟩ <;> rw [h2]
  · exact bucketsOK_addFailed st _ hb h1
  · exact bucketsOK_addPassed st _ hb h1

theorem validate_duplicates_shape (st : ValidationResults) (df : DataFrame) (pk : String) :
    ((validate_duplicates st df pk).2.2.status = Status.FAILED ∧
      (validate_duplicates st df pk).1 = st.addFailed (validate_duplicates st df pk).2.2) ∨
    ((validate_duplicates st df pk).2.2.status = Status.PASSED ∧
      (validate_duplicates st df pk).1 = st.addPassed (validate_duplicates st df pk).2.2) ∨
    ((validate_duplicates st df pk).2.2.status = Status.WARNING ∧
      (validate_duplicates st df pk).1 = st.addWarning (validate_duplicates st df pk).2.2) := by
  simp only [validate_duplicates]
  by_cases hc : df.columns.contains pk = false
  · rw [if_pos hc]
    exact Or.inl ⟨rfl, rfl⟩
  · rw [if_neg hc]
    by_cases hd : 0 < duplicatedCount (df.getColD pk).cells
    · rw [if_pos hd]
      exact Or.inr (Or.inr ⟨rfl, rfl⟩)
    · rw [if_neg hd]
      exact Or.inr (Or.inl ⟨rfl, rfl⟩)

theorem validate_duplicates_size (st : ValidationResults) (df : DataFrame) (pk : String) :
    stSize (validate_duplicates st df pk).1 = stSize st + 1 := by
  rcases validate_duplicates_shape st df pk with ⟨_, h2⟩ | ⟨_, h2⟩ | ⟨_, h2⟩ <;> rw [h2]
  · exact stSize_addFailed st _
  · exact stSize_addPassed st _
  · exact stSize_addWarning st _

theorem validate_duplicates_buckets (st : ValidationResults) (df : DataFrame) (pk : String)
    (hb : bucketsOK st) : bucketsOK (validate_duplicates st df pk).1 := by
  rcases validate_duplicates_shape st df pk with ⟨h1, h2⟩ | ⟨h1, h2⟩ | ⟨h1, h2⟩ <;> rw [h2]
  · exact bucketsOK_addFailed st _ hb h1
  · exact bucketsOK_addPassed st _ hb h1
  · exact bucketsOK_addWarning st _ hb h1

theorem validate_row_count_shape (st : ValidationResults) (df : DataFrame) (m : Nat) :
    ((validate_row_count st df m).2.2.status = Status.FAILED ∧
      (validate_row_count st df m).1 = st.addFailed (validate_row_count st df m).2.2) ∨
    ((validate_row_count st df m).2.2.status = Status.PASSED ∧
      (validate_row_count st df m).1 = st.addPassed (validate_row_count st df m).2.2) := by
  simp only [validate_row_count]
  by_cases hc : df.len < m
  · rw [if_pos hc]
    exact Or.inl ⟨rfl, rfl⟩
  · rw [if_neg hc]
    exact Or.inr ⟨rfl, rfl⟩

theorem validate_row_count_size (st : ValidationResults) (df : DataFrame) (m : Nat) :
    stSize (validate_row_count st df m).1 = stSize st + 1 := by
  rcases validate_row_count_shape st df m with ⟨_, h2⟩ | ⟨_, h2⟩ <;> rw [h2]
  · exact stSize_addFailed st _
  · exact stSize_addPassed st _

theorem validate_row_count_buckets (st : ValidationResults) (df : DataFrame) (m : Nat)
    (hb : bucketsOK st) : bucketsOK (validate_row_count st df m).1 := by
  rcases validate_row_count_shape st df m with ⟨h1, h2⟩ | ⟨h1, h2⟩ <;> rw [h2]
  · exact bucketsOK_addFailed st _ hb h1
  · exact bucketsOK_addPassed st _ hb h1

/-- A successful pass of the four checks appends exactly four results. -/
theorem runChecks_size (st : ValidationResults) (df : DataFrame) (st' : ValidationResults)
    (h : runChecks st df = Except.ok st') : stSize st' = stSize st + 4 := by
  unfold runChecks at h
  cases hs : validate_schema st df with
  | error e => rw [hs] at h; cases h
  | ok v =>
    obtain ⟨st1, b, r⟩ := v
    rw [hs] at h
    simp only [Except.ok.injEq] at h
    subst h
    have e1 := validate_schema_size st df st1 b r hs
    have e2 := validate_nulls_size st1 df 0.05
    have e3 := validate_duplicates_size (validate_nulls st1 df 0.05).1 df "commit_sha"
    have e4 := validate_row_count_size
      (validate_duplicates (validate_nulls st1 df 0.05).1 df "commit_sha").1 df 10
    omega

theorem runChecks_buckets (st : ValidationResults) (df : DataFrame) (st' : ValidationResults)
    (h : runChecks st df = Except.ok st') (hb : bucketsOK st) : bucketsOK st' := by
  unfold runChecks at h
  cases hs : validate_schema st df with
  | error e => rw [hs] at h; cases h
  | ok v =>
    obtain ⟨st1, b, r⟩ := v
    rw [hs] at h
    simp only [Except.ok.injEq] at h
    subst h
    exact validate_row_count_buckets _ df 10
      (validate_duplicates_buckets _ df "commit_sha"
        (validate_nulls_buckets st1 df 0.05
          (validate_schema_buckets st df st1 b r hs hb)))

theorem filter_not_nil_iff_all (l : List String) (p : String → Bool) :
    l.filter (fun x => !(p x)) = [] ↔ l.all p = true := by
  simp [List.filter_eq_nil_iff, List.all_eq_true]

/-- The per-column report built by the nulls loop: one entry per present column,
in loop order, absent columns skipped. -/
theorem nullsLoop_fst (df : DataFrame) (t : ℚ) (l : List String) :
    (nullsLoop df t l).1 =
      (l.filter (fun c => df.columns.contains c)).map (fun c => (c, nullEntry df c)) := by
  induction l with
  | nil => rfl
  | cons c rest ih =>
    simp only [nullsLoop]
    by_cases hc : df.columns.contains c = true
    · rw [if_pos hc, List.filter_cons, if_pos hc, List.map_cons]
      exact congrArg (List.cons (c, nullEntry df c)) ih
    · rw [if_neg hc, List.filter_cons, if_neg hc]
      exact ih

/-- The `has_critical_nulls` flag is set exactly when some present column's (unrounded)
null percentage strictly exceeds `threshold * 100`. -/
theorem nullsLoop_snd (df : DataFrame) (t : ℚ) (l : List String) :
    (nullsLoop df t l).2 = true ↔
      ∃ c ∈ l, df.columns.contains c = true ∧ nullPct df c > t * 100 := by
  induction l with
  | nil => simp [nullsLoop]
  | cons c rest ih =>
    simp only [nullsLoop]
    by_cases hc : df.columns.contains c = true
    · rw [if_pos hc]
      show (decide (nullPct df c > t * 100) || (nullsLoop df t rest).2) = true ↔ _
      rw [Bool.or_eq_true, decide_eq_true_eq, ih]
      constructor
      · rintro (hgt | ⟨x, hx, hcx, hgtx⟩)
        · exact ⟨c, List.mem_cons_self c rest, hc, hgt⟩
        · exact ⟨x, List.mem_cons_of_mem c hx, hcx, hgtx⟩
      · rintro ⟨x, hx, hcx, hgtx⟩
        rcases List.mem_cons.mp hx with h | h
        · subst h
          exact Or.inl hgtx
        · exact Or.inr ⟨x, h, hcx, hgtx⟩
    · rw [if_neg hc, ih]
      constructor
      · rintro ⟨x, hx, hcx, hgtx⟩
        exact ⟨x, List.mem_cons_of_mem c hx, hcx, hgtx⟩
      · rintro ⟨x, hx, hcx, hgtx⟩
        rcases List.mem_cons.mp hx with h | h
        · subst h
          exact absurd hcx hc
        · exact ⟨x, h, hcx, hgtx⟩

/-- When a column name is present, `getColD` returns a column actually stored in the
table under that name. -/
theorem getColD_mem (df : DataFrame) (c : String) (h : df.columns.contains c = true) :
    (c, df.getColD c) ∈ df.cols := by
  have hmem : c ∈ df.columns := by simpa using h
  obtain ⟨p, hp, hpc⟩ := List.mem_map.mp hmem
  have hsome : (df.cols.find? (fun q => q.1 == c)).isSome := by
    rw [List.find?_isSome]
    exact ⟨p, hp, by simp [hpc]⟩
  obtain ⟨q, hq⟩ := Option.isSome_iff_exists.mp hsome
  have hqmem := List.mem_of_find?_eq_some hq
  have hqc : q.1 = c := by simpa using List.find?_some hq
  have hgd : df.getColD c = q.2 := by
    simp [DataFrame.getColD, DataFrame.getCol?, hq]
  rw [hgd, ← hqc]
  exact hqmem

/-- In a well-formed zero-row table every column (present or not) has no cells. -/
theorem getColD_cells_nil (df : DataFrame) (c : String) (hwf : df.wf = true)
    (h0 : df.nrows = 0) : (df.getColD c).cells = [] := by
  unfold DataFrame.getColD DataFrame.getCol?
  cases hf : df.cols.find? (fun q => q.1 == c) with
  | none => rfl
  | some q =>
    have hqmem := List.mem_of_find?_eq_some hf
    have hsplit : (∀ p ∈ df.cols, p.2.cells.length = df.nrows ∧ p.2.wfb = true) ∧
        df.columns.Nodup := by
      simpa [DataFrame.wf, List.all_eq_true] using hwf
    have hlen : q.2.cells.length = 0 := by
      rw [(hsplit.1 q hqmem).1, h0]
    show q.2.cells = []
    exact List.length_eq_zero.mp hlen

/-- C6: `validate_row_count` returns FAILED exactly when the row count is strictly below
the minimum, PASSED otherwise, and in both cases the details carry the actual and the
minimum required counts. -/
theorem C6_row_count (df : DataFrame) (st : ValidationResults) (min_rows : Nat) :
    ((validate_row_count st df min_rows).2.2.status = Status.FAILED ↔ df.len < min_rows) ∧
    ((validate_row_count st df min_rows).2.2.status = Status.PASSED ↔ ¬ df.len < min_rows) ∧
    ((validate_row_count st df min_rows).2.1 = true ↔ ¬ df.len < min_rows) ∧
    (validate_row_count st df min_rows).2.2.details = Details.rowCount df.len min_rows := by
  simp only [validate_row_count]
  by_cases hc : df.len < min_rows
  · rw [if_pos hc]
    refine ⟨?_, ?_, ?_, ?_⟩ <;> simp [hc]
  · rw [if_neg hc]
    refine ⟨?_, ?_, ?_, ?_⟩ <;> simp [hc]

/-- C6 witness: the spec's example of a 5-row dataset against a minimum of 10. -/
theorem C6_row_count_witness :
    (validate_row_count ValidationResults.empty df5 10).2.2.status = Status.FAILED ∧
    (validate_row_count ValidationResults.empty df5 10).2.2.details =
      Details.rowCount 5 10 := by
  have h := C6_row_count df5 ValidationResults.empty 10
  exact ⟨h.1.mpr (by decide), h.2.2.2⟩

/-- C7: the report summary counts every accumulated result exactly once
(`total_checks` is the sum of the three bucket lengths) and the success rate is
passed over total times 100, rounded to two decimals, with 0 for an empty state; a
state of three PASSED, one FAILED and no WARNING results yields exactly 75. -/
theorem C7_report (st : ValidationResults) (ts : String) :
    ((generate_report st ts).summary.total_checks =
      st.passed.length + st.failed.length + st.warnings.length) ∧
    (st.passed.length + st.failed.length + st.warnings.length = 0 →
      (generate_report st ts).summary.success_rate = 0) ∧
    (0 < st.passed.length + st.failed.length + st.warnings.length →
      (generate_report st ts).summary.success_rate =
        round2 (((st.passed.length : ℚ) /
          ((st.passed.length + st.failed.length + st.warnings.length : Nat) : ℚ)) * 100)) ∧
    (st.passed.length = 3 → st.failed.length = 1 → st.warnings.length = 0 →
      (generate_report st ts).summary.success_rate = 75) := by
  refine ⟨rfl, ?_, ?_, ?_⟩
  · intro h
    simp only [generate_report]
    rw [if_neg (by omega)]
    norm_num [round2]
  · intro h
    simp only [generate_report]
    rw [if_pos h]
  · intro h1 h2 h3
    simp only [generate_report]
    rw [h1, h2, h3]
    norm_num [round2]

/-- C8: running the four checks on two freshly constructed validators over the same
unchanged dataset yields reports that agree on every field except the timestamp
(summary and full per-check results, including duplicate samples, are identical). -/
theorem C8_two_run_determinism (df : DataFrame) (t1 t2 : String) :
    (reportOf df t1).map Report.summary = (reportOf df t2).map Report.summary ∧
    (reportOf df t1).map Report.results = (reportOf df t2).map Report.results := by
  unfold reportOf
  cases runChecks ValidationResults.empty df <;> simp [generate_report]

/-- C9: the accumulator lists are never reset between runs: two successive four-check
passes on the same instance leave eight results in the generated report. -/
theorem C9_no_reset (df : DataFrame) (st1 st2 : ValidationResults) (ts : String)
    (h1 : runChecks ValidationResults.empty df = Except.ok st1)
    (h2 : runChecks st1 df = Except.ok st2) :
    (generate_report st2 ts).summary.total_checks = 8 := by
  have e1 := runChecks_size _ df _ h1
  have e2 := runChecks_size _ df _ h2
  have e0 : stSize ValidationResults.empty = 0 := rfl
  show st2.passed.length + st2.failed.length + st2.warnings.length = 8
  have e3 : stSize st2 = 8 := by omega
  simpa [stSize] using e3

/-- C9 witness: two passes over the empty table on one instance accumulate 8 results. -/
theorem C9_no_reset_witness :
    ∃ st1 st2, runChecks ValidationResults.empty dfEmpty0 = Except.ok st1 ∧
      runChecks st1 dfEmpty0 = Except.ok st2 ∧
      (generate_report st2 "t").summary.total_checks = 8 := by
  refine ⟨_, _, rfl, rfl, C9_no_reset dfEmpty0 _ _ "t" rfl rfl⟩

/-- Columns that store no nulls anywhere give a zero null count for any name. -/
theorem nullCount_eq_zero (df : DataFrame) (c : String)
    (h : ∀ p ∈ df.cols, (p.2.cells.filter Value.isna).length = 0) :
    nullCount df c = 0 := by
  unfold nullCount DataFrame.getColD DataFrame.getCol?
  cases hf : df.cols.find? (fun q => q.1 == c) with
  | none => rfl
  | some q => exact h q (List.mem_of_find?_eq_some hf)

/-- Unfolding of `runChecks` once the schema outcome is known. -/
theorem runChecks_ok_eq (st st1 : ValidationResults) (df : DataFrame) (b : Bool)
    (r : CheckResult) (h : validate_schema st df = Except.ok (st1, b, r)) :
    runChecks st df = Except.ok
      ((validate_row_count
        ((validate_duplicates ((validate_nulls st1 df 0.05).1) df "commit_sha").1)
        df 10).1) := by
  unfold runChecks
  rw [h]

theorem dfE2E_nulls_flag : (nullsLoop dfE2E 0.05 critical_columns).2 = false := by
  have hpct : ∀ c : String, nullPct dfE2E c = 0 := by
    intro c
    have h0 : nullCount dfE2E c = 0 := nullCount_eq_zero dfE2E c (by decide)
    simp [nullPct, h0]
  rw [← Bool.not_eq_true, nullsLoop_snd]
  rintro ⟨c, _, _, hgt⟩
  rw [hpct c] at hgt
  norm_num at hgt

theorem dfE2E_nulls_pass (s : ValidationResults) :
    (validate_nulls s dfE2E 0.05).1 = s.addPassed (validate_nulls s dfE2E 0.05).2.2 := by
  simp only [validate_nulls]
  rw [if_neg (by rw [dfE2E_nulls_flag]; decide)]

theorem dfE2E_dups_pass (s : ValidationResults) :
    (validate_duplicates s dfE2E "commit_sha").1 =
      s.addPassed (validate_duplicates s dfE2E "commit_sha").2.2 := by
  simp only [validate_duplicates]
  rw [if_neg (by decide), if_neg (by decide)]

theorem dfE2E_rows_pass (s : ValidationResults) :
    (validate_row_count s dfE2E 10).1 =
      s.addPassed (validate_row_count s dfE2E 10).2.2 := by
  simp only [validate_row_count]
  rw [if_neg (by decide)]

/-- A fresh four-check pass over the end-to-end dataset: one FAILED (schema), three
PASSED, no WARNING. -/
theorem dfE2E_runChecks :
    ∃ st, runChecks ValidationResults.empty dfE2E = Except.ok st ∧
      st.passed.length = 3 ∧ st.failed.length = 1 ∧ st.warnings.length = 0 := by
  obtain ⟨r1, h1⟩ : ∃ r, validate_schema ValidationResults.empty dfE2E =
      Except.ok (ValidationResults.empty.addFailed r, false, r) := by
    simp only [validate_schema]
    rw [if_pos (by decide)]
    exact ⟨_, rfl⟩
  refine ⟨_, runChecks_ok_eq _ _ _ _ _ h1, ?_, ?_, ?_⟩ <;>
    rw [dfE2E_rows_pass, dfE2E_dups_pass, dfE2E_nulls_pass] <;>
    simp [ValidationResults.addPassed, ValidationResults.addFailed, ValidationResults.empty]

/-- C7 witness: a fresh four-check pass over the end-to-end dataset (schema FAILED,
three PASSED) reports a 75% success rate. -/
theorem C7_report_witness :
    ∃ st, runChecks ValidationResults.empty dfE2E = Except.ok st ∧
      (generate_report st "t").summary.success_rate = 75 := by
  obtain ⟨st, hrc, hp, hf, hw⟩ := dfE2E_runChecks
  exact ⟨st, hrc, (C7_report st "t").2.2.2 hp hf hw⟩

/-- Unfolding of `run` once the four checks' outcome is known. -/
theorem run_eq_of_ok (df : DataFrame) (foe : Bool) (st : ValidationResults)
    (h : runChecks ValidationResults.empty df = Except.ok st) :
    run df foe = (if (decide (0 < st.failed.length) && foe) = true then
        Except.error (PyError.valueError "Data quality validation failed - pipeline stopped"
          (st.failed.map (fun r => (r.check, r.message))))
      else if decide (0 < st.failed.length) = true then Except.ok (st, false)
      else Except.ok (st, true)) := by
  unfold run
  rw [h]

/-- C1: after a run in which all four checks executed, the failed bucket holds exactly
the FAILED results; if any exist and fail-fast is requested, `run` raises the terminal
error carrying the (name, message) summary of every failed check; with failures and no
fail-fast it returns false; with no failures it returns true regardless of warnings. -/
theorem C1_run_contract (df : DataFrame) (fail_on_error : Bool) (st : ValidationResults)
    (h : runChecks ValidationResults.empty df = Except.ok st) :
    ((∃ r ∈ st.failed, r.status = Status.FAILED) ↔ 0 < st.failed.length) ∧
    (∀ r ∈ st.passed, r.status ≠ Status.FAILED) ∧
    (∀ r ∈ st.warnings, r.status ≠ Status.FAILED) ∧
    (0 < st.failed.length → fail_on_error = true →
      run df fail_on_error = Except.error
        (PyError.valueError "Data quality validation failed - pipeline stopped"
          (st.failed.map (fun r => (r.check, r.message))))) ∧
    (0 < st.failed.length → fail_on_error = false →
      run df fail_on_error = Except.ok (st, false)) ∧
    (st.failed.length = 0 → run df fail_on_error = Except.ok (st, true)) := by
  obtain ⟨hbp, hbf, hbw⟩ := runChecks_buckets _ df _ h bucketsOK_empty
  refine ⟨?_, ?_, ?_, ?_, ?_, ?_⟩
  · constructor
    · rintro ⟨r, hr, _⟩
      exact List.length_pos.mpr (List.ne_nil_of_mem hr)
    · intro hlen
      obtain ⟨r, hr⟩ := List.exists_mem_of_ne_nil _ (List.length_pos.mp hlen)
      exact ⟨r, hr, hbf r hr⟩
  · intro r hr
    rw [hbp r hr]
    exact fun hx => Status.noConfusion hx
  · intro r hr
    rw [hbw r hr]
    exact fun hx => Status.noConfusion hx
  · intro hlen hfoe
    subst hfoe
    rw [run_eq_of_ok df true st h, if_pos (by simp [hlen])]
  · intro hlen hfoe
    subst hfoe
    rw [run_eq_of_ok df false st h, if_neg (by simp), if_pos (by simp [hlen])]
  · intro hlen
    rw [run_eq_of_ok df fail_on_error st h, if_neg (by simp [hlen]),
      if_neg (by simp [hlen])]

/-- C1 witness: over the end-to-end dataset (one FAILED check) with fail-fast on,
`run` raises the terminal error carrying the failed summaries. -/
theorem C1_run_contract_witness :
    ∃ fs, run dfE2E true = Except.error
      (PyError.valueError "Data quality validation failed - pipeline stopped" fs) := by
  obtain ⟨st, hrc, hp, hf, hw⟩ := dfE2E_runChecks
  exact ⟨_, (C1_run_contract dfE2E true st hrc).2.2.2.1 (by omega) rfl⟩

/-- C2 counterexample: a well-formed dataset whose `commit_sha` column is present but
numeric-dtyped (not string-valued) makes `validate_schema` raise (pandas: the `.str`
accessor on a non-string column raises `AttributeError`) instead of returning a
structured result, so the four checks do not all execute in such a run. -/
theorem C2_counterexample :
    dfIntSha.wf = true ∧
    validate_schema ValidationResults.empty dfIntSha =
      Except.error
        (PyError.attributeError "Can only use .str accessor with string values!") := by
  constructor
  · decide
  · rfl

/-- An `if` whose branches are both `Except.ok` always yields an `Except.ok`. -/
theorem ite_ok_exists {ε β : Type _} {c : Prop} [Decidable c] {x y : β} :
    ∃ v, (if c then Except.ok (ε := ε) x else Except.ok y) = Except.ok v := by
  by_cases hc : c
  · exact ⟨x, if_pos hc⟩
  · exact ⟨y, if_neg hc⟩

/-- C2 (amended): the nulls, duplicates and row-count checks are total, and the schema
check also returns a structured result provided the key column is string-accessible
whenever all required columns are present; under that proviso one run executes all
four checks, each contributing exactly one structured result. -/
theorem C2_checks_execute (st : ValidationResults) (df : DataFrame)
    (h : required_columns.all (fun c => df.columns.contains c) = true →
      strAccessorOk (df.getColD "commit_sha") = true) :
    ∃ st', runChecks st df = Except.ok st' ∧ stSize st' = stSize st + 4 := by
  obtain ⟨v, hv⟩ : ∃ v, validate_schema st df = Except.ok v := by
    by_cases hm : required_columns.filter (fun col => !(df.columns.contains col)) ≠ []
    · simp only [validate_schema]
      rw [if_pos hm]
      exact ⟨_, rfl⟩
    · rw [not_ne_iff] at hm
      have hacc := h ((filter_not_nil_iff_all _ _).mp hm)
      simp only [validate_schema]
      rw [if_neg (not_ne_iff.mpr hm), if_neg (by rw [hacc]; decide)]
      exact ite_ok_exists
  obtain ⟨st1, b, r⟩ := v
  refine ⟨_, runChecks_ok_eq st st1 df b r hv, ?_⟩
  have e1 := validate_schema_size st df st1 b r hv
  have e2 := validate_nulls_size st1 df 0.05
  have e3 := validate_duplicates_size (validate_nulls st1 df 0.05).1 df "commit_sha"
  have e4 := validate_row_count_size
    (validate_duplicates (validate_nulls st1 df 0.05).1 df "commit_sha").1 df 10
  omega

/-- C2 (amended) witness: over the end-to-end dataset one run executes all four checks
and accumulates exactly four structured results. -/
theorem C2_checks_execute_witness :
    ∃ st', runChecks ValidationResults.empty dfE2E = Except.ok st' ∧
      stSize st' = stSize ValidationResults.empty + 4 :=
  C2_checks_execute ValidationResults.empty dfE2E (by decide)

theorem validate_schema_missing_eq (st : ValidationResults) (df : DataFrame)
    (hm : required_columns.filter (fun col => !(df.columns.contains col)) ≠ []) :
    validate_schema st df = Except.ok
      (st.addFailed ⟨"schema_validation", Status.FAILED,
        "Missing required columns: " ++
          toString (required_columns.filter (fun col => !(df.columns.contains col))),
        Details.schemaMissing required_columns df.columns
          (required_columns.filter (fun col => !(df.columns.contains col)))⟩,
       false,
       ⟨"schema_validation", Status.FAILED,
        "Missing required columns: " ++
          toString (required_columns.filter (fun col => !(df.columns.contains col))),
        Details.schemaMissing required_columns df.columns
          (required_columns.filter (fun col => !(df.columns.contains col)))⟩) := by
  simp only [validate_schema]
  rw [if_pos hm]

/-- On the type-check path the schema check gates exactly on `schemaTypeErrorsOf`. -/
theorem validate_schema_typeerr_cond (st : ValidationResults) (df : DataFrame)
    (hm : required_columns.filter (fun col => !(df.columns.contains col)) = [])
    (hacc : strAccessorOk (df.getColD "commit_sha") = true) :
    validate_schema st df = (if schemaTypeErrorsOf df ≠ [] then
      Except.ok (st.addFailed ⟨"schema_validation", Status.FAILED,
        "Data type validation errors: " ++ toString (schemaTypeErrorsOf df),
        Details.schemaTypeErrors (schemaTypeErrorsOf df)⟩, false,
        ⟨"schema_validation", Status.FAILED,
        "Data type validation errors: " ++ toString (schemaTypeErrorsOf df),
        Details.schemaTypeErrors (schemaTypeErrorsOf df)⟩)
    else Except.ok (st.addPassed ⟨"schema_validation", Status.PASSED,
        "All required columns present with correct types",
        Details.schemaValidated required_columns⟩, true,
        ⟨"schema_validation", Status.PASSED,
        "All required columns present with correct types",
        Details.schemaValidated required_columns⟩)) := by
  simp only [validate_schema]
  rw [if_neg (not_ne_iff.mpr hm), if_neg (by rw [hacc]; decide)]
  rfl

theorem schemaStatus?_of_missing (st : ValidationResults) (df : DataFrame)
    (hm : required_columns.filter (fun col => !(df.columns.contains col)) ≠ []) :
    schemaStatus? st df = some Status.FAILED ∧
    schemaMissing? st df =
      some (required_columns.filter (fun col => !(df.columns.contains col))) := by
  unfold schemaStatus? schemaMissing?
  rw [validate_schema_missing_eq st df hm]
  exact ⟨rfl, rfl⟩

theorem schemaStatus?_of_badaccessor (st : ValidationResults) (df : DataFrame)
    (hm : required_columns.filter (fun col => !(df.columns.contains col)) = [])
    (hacc : strAccessorOk (df.getColD "commit_sha") = false) :
    schemaStatus? st df = none := by
  unfold schemaStatus?
  have he : validate_schema st df =
      Except.error (PyError.attributeError "Can only use .str accessor with string values!") := by
    simp only [validate_schema]
    rw [if_neg (not_ne_iff.mpr hm), if_pos hacc]
  rw [he]

theorem schemaStatus?_of_typeerr (st : ValidationResults) (df : DataFrame)
    (hm : required_columns.filter (fun col => !(df.columns.contains col)) = [])
    (hacc : strAccessorOk (df.getColD "commit_sha") = true)
    (hne : schemaTypeErrorsOf df ≠ []) :
    schemaStatus? st df = some Status.FAILED := by
  unfold schemaStatus?
  rw [validate_schema_typeerr_cond st df hm hacc, if_pos hne]

theorem schemaStatus?_passed (st : ValidationResults) (df : DataFrame)
    (hm : required_columns.filter (fun col => !(df.columns.contains col)) = [])
    (hacc : strAccessorOk (df.getColD "commit_sha") = true)
    (hnil : schemaTypeErrorsOf df = []) :
    schemaStatus? st df = some Status.PASSED := by
  unfold schemaStatus?
  rw [validate_schema_typeerr_cond st df hm hacc, if_neg (not_ne_iff.mpr hnil)]

/-- C3 (amended): schema validation returns PASSED exactly when no required column is
missing and there are no type errors (every key value matches the SHA pattern, date
columns are datetime-typed, the count column numeric-typed) — with the PASSED-direction
additionally requiring the key column to be string-accessible, since a present but
non-string-dtyped key column makes the check raise instead; and whenever required
columns are missing, the status is FAILED with the missing detail equal to the set
difference between required and actual columns. -/
theorem C3_schema (df : DataFrame) (st : ValidationResults) :
    (schemaStatus? st df = some Status.PASSED →
      required_columns.all (fun c => df.columns.contains c) = true ∧
      (df.getColD "commit_sha").cells.all shaCellMatch = true ∧
      (df.getColD "author_date").dtype = Dtype.datetime64 ∧
      (df.getColD "committer_date").dtype = Dtype.datetime64 ∧
      (df.getColD "comment_count").dtype = Dtype.numeric) ∧
    (required_columns.all (fun c => df.columns.contains c) = true →
      strAccessorOk (df.getColD "commit_sha") = true →
      (df.getColD "commit_sha").cells.all shaCellMatch = true →
      (df.getColD "author_date").dtype = Dtype.datetime64 →
      (df.getColD "committer_date").dtype = Dtype.datetime64 →
      (df.getColD "comment_count").dtype = Dtype.numeric →
      schemaStatus? st df = some Status.PASSED) ∧
    (required_columns.filter (fun c => !(df.columns.contains c)) ≠ [] →
      schemaStatus? st df = some Status.FAILED ∧
      schemaMissing? st df =
        some (required_columns.filter (fun c => !(df.columns.contains c))) ∧
      ∀ c, (c ∈ required_columns.filter (fun x => !(df.columns.contains x))) ↔
        (c ∈ required_columns ∧ ¬ c ∈ df.columns)) := by
  refine ⟨?_, ?_, ?_⟩
  · intro hps
    by_cases hm : required_columns.filter (fun col => !(df.columns.contains col)) = []
    · have hall := (filter_not_nil_iff_all _ _).mp hm
      by_cases hacc : strAccessorOk (df.getColD "commit_sha") = true
      · have hnil : schemaTypeErrorsOf df = [] := by
          by_contra hne
          rw [schemaStatus?_of_typeerr st df hm hacc hne] at hps
          simp at hps
        simp only [schemaTypeErrorsOf, List.append_eq_nil, ite_eq_right_iff] at hnil
        obtain ⟨⟨⟨h1, h2⟩, h3⟩, h4⟩ := hnil
        have h1' : ¬ (0 < ((df.getColD "commit_sha").cells.filter
            (fun v => !(shaCellMatch v))).length) := fun hc => by simpa using h1 hc
        have hsha : (df.getColD "commit_sha").cells.all shaCellMatch = true := by
          rw [List.all_eq_true]
          intro v hv
          by_contra hvm
          have hvmem : v ∈ (df.getColD "commit_sha").cells.filter
              (fun v => !(shaCellMatch v)) :=
            List.mem_filter.mpr ⟨hv, by simpa using hvm⟩
          exact h1' (List.length_pos.mpr (List.ne_nil_of_mem hvmem))
        refine ⟨hall, hsha, ?_, ?_, ?_⟩
        · exact not_ne_iff.mp (fun hc => by simpa using h2 hc)
        · exact not_ne_iff.mp (fun hc => by simpa using h3 hc)
        · exact not_ne_iff.mp (fun hc => by simpa using h4 hc)
      · have hacc' : strAccessorOk (df.getColD "commit_sha") = false := by
          revert hacc
          cases strAccessorOk (df.getColD "commit_sha") <;> simp
        rw [schemaStatus?_of_badaccessor st df hm hacc'] at hps
        exact Option.noConfusion hps
    · rw [(schemaStatus?_of_missing st df hm).1] at hps
      simp at hps
  · intro hall hacc hsha h1 h2 h3
    have hm : required_columns.filter (fun col => !(df.columns.contains col)) = [] :=
      (filter_not_nil_iff_all _ _).mpr hall
    have hinv : (df.getColD "commit_sha").cells.filter (fun v => !(shaCellMatch v)) = [] := by
      rw [List.filter_eq_nil_iff]
      intro v hv
      simp [List.all_eq_true.mp hsha v hv]
    have hnil : schemaTypeErrorsOf df = [] := by
      simp [schemaTypeErrorsOf, hinv, h1, h2, h3]
    exact schemaStatus?_passed st df hm hacc hnil
  · intro hm
    refine ⟨(schemaStatus?_of_missing st df hm).1, (schemaStatus?_of_missing st df hm).2, ?_⟩
    intro c
    simp [List.mem_filter]

/-- C3 counterexample: a well-formed zero-row dataset with all nine required columns,
correctly typed date and count columns and (vacuously) only pattern-matching key
values, on which schema validation nevertheless does not return PASSED — the key
column's numeric dtype makes the `.str` accessor raise.  The claim's "PASSED iff no
missing column and no type error" therefore fails as stated. -/
theorem C3_schema_counterexample :
    dfEmptyNumericSha.wf = true ∧
    required_columns.all (fun c => dfEmptyNumericSha.columns.contains c) = true ∧
    (dfEmptyNumericSha.getColD "commit_sha").cells.all shaCellMatch = true ∧
    (dfEmptyNumericSha.getColD "author_date").dtype = Dtype.datetime64 ∧
    (dfEmptyNumericSha.getColD "committer_date").dtype = Dtype.datetime64 ∧
    (dfEmptyNumericSha.getColD "comment_count").dtype = Dtype.numeric ∧
    ¬ schemaStatus? ValidationResults.empty dfEmptyNumericSha = some Status.PASSED := by
  decide

/-- C3 witness: a fully valid one-row dataset passes schema validation. -/
theorem C3_schema_witness :
    schemaStatus? ValidationResults.empty dfGood = some Status.PASSED :=
  (C3_schema dfGood ValidationResults.empty).2.1 (by decide) (by decide) (by decide)
    (by decide) (by decide) (by decide)

/-- C4: for a non-empty dataset and any threshold, the nulls check returns FAILED
exactly when some critical column present in the dataset has (unrounded) null
percentage strictly above `threshold * 100`; the result's details hold one entry
(null count, percentage rounded to 2 decimals, total rows) per present critical
column, in the fixed order, and no entry for absent columns; the pass signal is the
negation of failure. -/
theorem C4_nulls (df : DataFrame) (st : ValidationResults) (t : ℚ) (hne : 0 < df.nrows) :
    ((validate_nulls st df t).2.2.status = Status.FAILED ↔
      ∃ c ∈ critical_columns, df.columns.contains c = true ∧ nullPct df c > t * 100) ∧
    ((validate_nulls st df t).2.1 = true ↔
      ¬ (validate_nulls st df t).2.2.status = Status.FAILED) ∧
    (validate_nulls st df t).2.2.details = Details.nullReport
      ((critical_columns.filter (fun c => df.columns.contains c)).map
        (fun c => (c, nullEntry df c))) := by
  simp only [validate_nulls]
  by_cases hf : (nullsLoop df t critical_columns).2 = true
  · rw [if_pos hf]
    refine ⟨⟨fun _ => (nullsLoop_snd df t critical_columns).mp hf, fun _ => rfl⟩,
      by simp, ?_⟩
    exact congrArg Details.nullReport (nullsLoop_fst df t critical_columns)
  · rw [if_neg hf]
    refine ⟨⟨fun hx => absurd hx (by simp), ?_⟩, by simp, ?_⟩
    · intro hex
      exact absurd ((nullsLoop_snd df t critical_columns).mpr hex) hf
    · exact congrArg Details.nullReport (nullsLoop_fst df t critical_columns)

/-- C4 witness: two rows with `author_email` half null (50% > 5%) fail the check. -/
theorem C4_nulls_witness :
    (validate_nulls ValidationResults.empty dfNullFail 0.05).2.2.status = Status.FAILED := by
  refine (C4_nulls dfNullFail ValidationResults.empty 0.05 (by decide)).1.mpr
    ⟨"author_email", by decide, by decide, ?_⟩
  have h1 : nullCount dfNullFail "author_email" = 1 := rfl
  have h2 : dfNullFail.len = 2 := rfl
  simp only [nullPct, h1, h2]
  norm_num

/-- C5: duplicate detection fails when the key column is absent (pass signal false);
with the column present, a positive duplicate count (repeats beyond the first
occurrence of each key) yields a WARNING carrying the count, the rounded percentage,
the total row count and at most five sample key values, while still signalling pass;
a zero duplicate count yields PASSED. -/
theorem C5_duplicates (df : DataFrame) (st : ValidationResults) :
    (df.columns.contains "commit_sha" = false →
      (validate_duplicates st df "commit_sha").2.2.status = Status.FAILED ∧
      (validate_duplicates st df "commit_sha").2.1 = false) ∧
    (df.columns.contains "commit_sha" = true →
      (0 < duplicatedCount (df.getColD "commit_sha").cells →
        (validate_duplicates st df "commit_sha").2.2.status = Status.WARNING ∧
        (validate_duplicates st df "commit_sha").2.1 = true ∧
        (validate_duplicates st df "commit_sha").2.2.details =
          Details.dupWarning (duplicatedCount (df.getColD "commit_sha").cells)
            (round2 (((duplicatedCount (df.getColD "commit_sha").cells : ℚ) /
              (df.len : ℚ)) * 100))
            df.len (sample_duplicates (df.getColD "commit_sha").cells) ∧
        (sample_duplicates (df.getColD "commit_sha").cells).length ≤ 5) ∧
      (duplicatedCount (df.getColD "commit_sha").cells = 0 →
        (validate_duplicates st df "commit_sha").2.2.status = Status.PASSED ∧
        (validate_duplicates st df "commit_sha").2.1 = true)) := by
  constructor
  · intro hc
    simp only [validate_duplicates]
    rw [if_pos hc]
    exact ⟨rfl, rfl⟩
  · intro hc
    have hc' : ¬ (df.columns.contains "commit_sha" = false) := by rw [hc]; decide
    constructor
    · intro hd
      simp only [validate_duplicates]
      rw [if_neg hc', if_pos hd]
      refine ⟨rfl, rfl, rfl, ?_⟩
      exact List.length_take_le 5 (uniqueAux (keepFalseDuplicated
        (df.getColD "commit_sha").cells) [])
    · intro hd
      simp only [validate_duplicates]
      rw [if_neg hc', if_neg (by omega)]
      exact ⟨rfl, rfl⟩

/-- C5 witness: three rows sharing one key among otherwise-unique rows give a
duplicate count of 2, WARNING status and a pass signal. -/
theorem C5_duplicates_witness :
    duplicatedCount (dfDup.getColD "commit_sha").cells = 2 ∧
    (validate_duplicates ValidationResults.empty dfDup "commit_sha").2.2.status =
      Status.WARNING ∧
    (validate_duplicates ValidationResults.empty dfDup "commit_sha").2.1 = true := by
  have h := ((C5_duplicates dfDup ValidationResults.empty).2 (by decide)).1 (by decide)
  exact ⟨by decide, h.1, h.2.1⟩

/-- C10: on a well-formed zero-row dataset containing all eight critical columns the
nulls check returns (it never raises: the zero-divide percentage is NaN in numpy,
whose threshold comparison is false, matching the `0 / 0 = 0` convention of `ℚ`),
signals pass with PASSED status, and records a zero null count for every column. -/
theorem C10_nulls_empty (df : DataFrame) (st : ValidationResults)
    (hwf : df.wf = true) (h0 : df.nrows = 0)
    (hall : critical_columns.all (fun c => df.columns.contains c) = true) :
    (validate_nulls st df 0.05).2.1 = true ∧
    (validate_nulls st df 0.05).2.2.status = Status.PASSED ∧
    (validate_nulls st df 0.05).2.2.details =
      Details.nullReport (critical_columns.map (fun c => (c, ⟨0, 0, 0⟩))) := by
  have hcells : ∀ c : String, (df.getColD c).cells = [] :=
    fun c => getColD_cells_nil df c hwf h0
  have hcount : ∀ c : String, nullCount df c = 0 := by
    intro c
    unfold nullCount
    rw [hcells c]
    rfl
  have hpct : ∀ c : String, nullPct df c = 0 := by
    intro c
    simp [nullPct, hcount c]
  have hflag : (nullsLoop df 0.05 critical_columns).2 = false := by
    rw [← Bool.not_eq_true, nullsLoop_snd]
    rintro ⟨c, _, _, hgt⟩
    rw [hpct c] at hgt
    norm_num at hgt
  have hlen : df.len = 0 := h0
  have hentry : ∀ c ∈ critical_columns, (c, nullEntry df c) =
      (c, (⟨0, 0, 0⟩ : NullColDetail)) := by
    intro c _
    unfold nullEntry
    rw [hcount c, hlen, hpct c]
    simp [round2]
  simp only [validate_nulls]
  rw [if_neg (by rw [hflag]; decide)]
  refine ⟨rfl, rfl, ?_⟩
  show Details.nullReport (nullsLoop df 0.05 critical_columns).1 = _
  rw [nullsLoop_fst]
  have hfilter : critical_columns.filter (fun c => df.columns.contains c) =
      critical_columns :=
    List.filter_eq_self.mpr (List.all_eq_true.mp hall)
  rw [hfilter]
  exact congrArg Details.nullReport (List.map_congr_left hentry)

/-- C10 witness: the concrete zero-row table holding the eight critical columns. -/
theorem C10_nulls_empty_witness :
    (validate_nulls ValidationResults.empty dfNull0 0.05).2.1 = true ∧
    (validate_nulls ValidationResults.empty dfNull0 0.05).2.2.status = Status.PASSED ∧
    (validate_nulls ValidationResults.empty dfNull0 0.05).2.2.details =
      Details.nullReport (critical_columns.map (fun c => (c, ⟨0, 0, 0⟩))) :=
  C10_nulls_empty dfNull0 ValidationResults.empty (by decide) rfl (by decide)
